import Mathlib

/-!
Verification model of the file_agent repository (src/file_agent/agent.py,
src/file_agent/file_manager.py, src/file_agent/ai_providers.py).

The embedding is shallow and executable:
* the filesystem is a finite map from resolved path strings to file contents,
  together with a set of directory paths; operating-system I/O faults
  (permission errors, disk errors) and byte-level concerns (encodings,
  platform newline translation, modification timestamps) are outside the
  model, so the Python `except` arms that only such faults can reach are
  unreachable here and are noted at each definition;
* Python regular-expression searches used by the code are modelled as
  explicit scanning functions with the exact leftmost-match and
  greedy/lazy backtracking semantics of the `re` module for the concrete
  patterns appearing in the source;
* the AI backend is an oracle value: every provider in
  src/file_agent/ai_providers.py wraps its network call in a try/except
  that converts any exception into a record with success = False, so the
  coordinator only ever observes a response record, never a raised
  exception from the provider.
-/

namespace Agent

/-- Single-quote character, written by code point to keep source lines plain. -/
def squote : Char := Char.ofNat 39

/-- Python whitespace for str.strip and the regex class backslash-s:
space, tab, newline, carriage return, vertical tab, form feed. -/
def isPySpace (c : Char) : Bool :=
  c == ' ' || c == Char.ofNat 9 || c == Char.ofNat 10 ||
  c == Char.ofNat 13 || c == Char.ofNat 11 || c == Char.ofNat 12

/-- Model of Python str.lower restricted to the alphabets the classifier
meets: ASCII letters are lowered, everything else (in particular the
Chinese keywords) is unchanged, exactly as Char.toLower behaves. -/
def pyLower (s : String) : String := String.mk (s.data.map Char.toLower)

/-- Strip Python-style whitespace from both ends of a character list. -/
def pyStripList (cs : List Char) : List Char :=
  ((cs.dropWhile isPySpace).reverse.dropWhile isPySpace).reverse

/-- Model of Python str.strip() with no argument. -/
def pyStrip (s : String) : String := String.mk (pyStripList s.data)

/-- Model of Python str.strip(chars): remove every leading and trailing
character belonging to the given set. -/
def pyStripChars (set : List Char) (s : String) : String :=
  String.mk (((s.data.dropWhile (fun c => set.contains c)).reverse.dropWhile
    (fun c => set.contains c)).reverse)

/-- Decide whether the pattern list occurs contiguously inside the subject
list; this is Python's substring membership test (pat in s). -/
def listInfixOf (p : List Char) : List Char → Bool
  | [] => p.isEmpty
  | c :: t => p.isPrefixOf (c :: t) || listInfixOf p t

/-- Python substring test (pat in s) on strings. -/
def strContains (s pat : String) : Bool := listInfixOf pat.data s.data

/-- First character test, Python s.startswith(single character). -/
def firstCharIs (s : String) (c : Char) : Bool := s.data.head? == some c

/-- Last character test, Python s.endswith(single character). -/
def lastCharIs (s : String) (c : Char) : Bool := s.data.getLast? == some c

/-- Python s[1:-1]: drop the first and the last character. -/
def dropEnds (s : String) : String := String.mk ((s.data.drop 1).dropLast)

/-- Quote characters of the classifier's extraction patterns. -/
def isQuoteChar (c : Char) : Bool := c == '"' || c == squote

/-- Word character for the regex class backslash-w. Python matches Unicode
word characters; the model covers ASCII alphanumerics, the underscore and
the CJK Unified Ideographs block, the alphabets exercised by this code. -/
def isWordChar (c : Char) : Bool :=
  c.isAlphanum || c == '_' || (0x4E00 ≤ c.toNat && c.toNat ≤ 0x9FFF)

/-- Attempt the quoted-token pattern at the head of the list. The pattern
is: a quote character, one or more characters that are not quotes
(captured), a closing quote of either kind. On a match, return the capture
and the characters after the closing quote. Because the capture class
excludes both quote characters, the closing quote is necessarily the first
quote character after the opener, so the match at a position is unique. -/
def quotedAt (cs : List Char) : Option (List Char × List Char) :=
  match cs with
  | c :: rest =>
    if isQuoteChar c then
      let content := rest.takeWhile (fun d => !isQuoteChar d)
      match rest.drop content.length with
      | _ :: after => if content.isEmpty then none else some (content, after)
      | [] => none
    else none
  | [] => none

/-- Leftmost match of the plain quoted-token pattern; this is
re.search applied to the directory-name pattern at agent.py line 154. -/
def searchQuotedAux : Nat → List Char → Option (List Char)
  | 0, _ => none
  | _, [] => none
  | fuel + 1, c :: cs =>
    match quotedAt (c :: cs) with
    | some (g, _) => some g
    | none => searchQuotedAux fuel cs

/-- re.search for a quoted token, returning capture group 1. -/
def search_quoted (s : String) : Option String :=
  (searchQuotedAux s.data.length s.data).map String.mk

/-- Does the list contain a dot, not as its notional first character,
followed by a nonempty all-word-character suffix running to the end? This
is satisfiability of the tail of the filename pattern: because the word
class excludes the dot, at most one split can succeed, so backtracking
over dot positions reduces to this scan. -/
def hasDotExt : List Char → Bool
  | [] => false
  | c :: rest =>
    (c == '.' && !rest.isEmpty && rest.all isWordChar) || hasDotExt rest

/-- Does a quoted capture have filename shape, i.e. match the anchored
pattern of one or more non-quote characters, a dot, then one or more word
characters (agent.py line 122)? The dot may not open the capture. -/
def filenameLike (cs : List Char) : Bool :=
  match cs with
  | [] => false
  | _ :: rest => hasDotExt rest

/-- Attempt the quoted-filename pattern at the head of the list. -/
def quotedFilenameAt (cs : List Char) : Option (List Char × List Char) :=
  match quotedAt cs with
  | some (g, rest) => if filenameLike g then some (g, rest) else none
  | none => none

/-- Leftmost quoted-filename match, re.search of agent.py line 122. -/
def searchQuotedFilenameAux : Nat → List Char → Option (List Char)
  | 0, _ => none
  | _, [] => none
  | fuel + 1, c :: cs =>
    match quotedFilenameAt (c :: cs) with
    | some (g, _) => some g
    | none => searchQuotedFilenameAux fuel cs

/-- re.search for a quoted filename-like token, capture group 1. -/
def search_quoted_filename (s : String) : Option String :=
  (searchQuotedFilenameAux s.data.length s.data).map String.mk

/-- All non-overlapping quoted-filename matches in order, re.findall of
agent.py line 192; scanning resumes after each consumed closing quote. -/
def findallQuotedFilenamesAux : Nat → List Char → List (List Char)
  | 0, _ => []
  | _, [] => []
  | fuel + 1, c :: cs =>
    match quotedFilenameAt (c :: cs) with
    | some (g, rest) => g :: findallQuotedFilenamesAux fuel rest
    | none => findallQuotedFilenamesAux fuel cs

/-- re.findall for quoted filename-like tokens. -/
def findall_quoted_filenames (s : String) : List String :=
  (findallQuotedFilenamesAux s.data.length s.data).map String.mk

/-- Attempt, at the head of the list, the tail of the content pattern of
agent.py line 130: the two keyword characters, an optional 是 or 为, then
immediately a quoted token. The optional character is tried consumed
first; the unconsumed alternative is kept for literal fidelity to the
regex even though a 是 or 为 can never itself open a quote. -/
def contentQuotedAt (cs : List Char) : Option (List Char) :=
  match cs with
  | c1 :: c2 :: rest =>
    if c1 == '内' && c2 == '容' then
      let withOpt : Option (List Char) :=
        match rest with
        | d :: r => if d == '是' || d == '为' then (quotedAt r).map (·.1) else none
        | [] => none
      match withOpt with
      | some g => some g
      | none => (quotedAt rest).map (·.1)
    else none
  | _ => none

/-- Leftmost match of the quoted content pattern. -/
def searchContentQuotedAux : Nat → List Char → Option (List Char)
  | 0, _ => none
  | _, [] => none
  | fuel + 1, c :: cs =>
    match contentQuotedAt (c :: cs) with
    | some g => some g
    | none => searchContentQuotedAux fuel cs

/-- re.search of the pattern at agent.py line 130, capture group 1. -/
def search_content_quoted (s : String) : Option String :=
  (searchContentQuotedAux s.data.length s.data).map String.mk

/-- Tail of the free-text content pattern of agent.py line 136: greedy
whitespace (newlines included), then a nonempty dot-plus capture that
stops at a newline. When everything remaining is whitespace the engine
backtracks the whitespace star, so the capture becomes the last remaining
character that is not a newline, if any. -/
def contentFreeTail (rest : List Char) : Option (List Char) :=
  let w := rest.takeWhile isPySpace
  let r := rest.drop w.length
  if !r.isEmpty then some (r.takeWhile (fun c => c != Char.ofNat 10))
  else
    match (w.filter (fun c => c != Char.ofNat 10)).getLast? with
    | some c => some [c]
    | none => none

/-- Attempt the free-text content pattern at the head of the list; the
optional 是 or 为 is consumed first and given back on failure. -/
def contentFreeAt (cs : List Char) : Option (List Char) :=
  match cs with
  | c1 :: c2 :: rest =>
    if c1 == '内' && c2 == '容' then
      let withOpt : Option (List Char) :=
        match rest with
        | d :: r => if d == '是' || d == '为' then contentFreeTail r else none
        | [] => none
      match withOpt with
      | some g => some g
      | none => contentFreeTail rest
    else none
  | _ => none

/-- Leftmost match of the free-text content pattern. -/
def searchContentFreeAux : Nat → List Char → Option (List Char)
  | 0, _ => none
  | _, [] => none
  | fuel + 1, c :: cs =>
    match contentFreeAt (c :: cs) with
    | some g => some g
    | none => searchContentFreeAux fuel cs

/-- re.search of the pattern at agent.py line 136, capture group 1. -/
def search_content_free (s : String) : Option String :=
  (searchContentFreeAux s.data.length s.data).map String.mk

/-- The primitive filesystem operations a classified command can name;
parameters are stored with the command (agent.py _parse_command). -/
inductive PrimOp where
  | createFileOp (path content : String)
  | createDirectoryOp (path : String)
  | readFileOp (path : String)
  | listFilesOp (path : String) (recursive : Bool)
  | deleteFileOp (path : String)
  | copyFileOp (srcPath dstPath : String)
deriving Repr, DecidableEq

/-- A classified command: either a primitive filesystem operation with its
parameters, or the AI fallback carrying the prompt. -/
inductive AgentCommand where
  | prim (op : PrimOp)
  | aiProcess (prompt : String)
deriving Repr, DecidableEq

/-- Model of FileAgent._parse_command (agent.py lines 105 to 203).
Keyword matching runs on the lower-cased stripped copy; extraction runs
on the original-case stripped input. A branch whose keyword test passes
but whose extraction fails falls through to the final fallback return,
because in the source the elif chain is then skipped entirely. Note the
folder keyword 文件夹 contains the file keyword 文件 as a substring, so
the first branch also captures every create-folder utterance. -/
def parse_command (user_input : String) : AgentCommand :=
  let original := pyStrip user_input
  let lower := pyStrip (pyLower user_input)
  if strContains lower "创建" && strContains lower "文件" then
    match search_quoted_filename original with
    | some filename =>
      let content1 :=
        if strContains lower "内容" then (search_content_quoted original).getD ""
        else ""
      let content :=
        if content1 == "" then
          match search_content_free original with
          | some cp0 =>
            let cp := pyStrip cp0
            if firstCharIs cp '"' && lastCharIs cp '"' then dropEnds cp
            else if firstCharIs cp squote && lastCharIs cp squote then dropEnds cp
            else cp
          | none => ""
        else content1
      AgentCommand.prim (PrimOp.createFileOp filename content)
    | none => AgentCommand.aiProcess original
  else if strContains lower "创建" &&
      (strContains lower "目录" || strContains lower "文件夹") then
    match search_quoted original with
    | some d => AgentCommand.prim (PrimOp.createDirectoryOp d)
    | none => AgentCommand.aiProcess original
  else if strContains lower "读取" || strContains lower "查看" then
    match search_quoted_filename original with
    | some f => AgentCommand.prim (PrimOp.readFileOp f)
    | none => AgentCommand.aiProcess original
  else if strContains lower "列出" || strContains lower "显示" then
    AgentCommand.prim (PrimOp.listFilesOp "." (strContains lower "递归"))
  else if strContains lower "删除" then
    match search_quoted_filename original with
    | some f => AgentCommand.prim (PrimOp.deleteFileOp f)
    | none => AgentCommand.aiProcess original
  else if strContains lower "复制" || strContains lower "拷贝" then
    match findall_quoted_filenames original with
    | a :: b :: _ => AgentCommand.prim (PrimOp.copyFileOp a b)
    | _ => AgentCommand.aiProcess original
  else AgentCommand.aiProcess original

/-- Filesystem state: a finite map from resolved path strings to file
contents (as an association list, most recent binding first) and the set
of known directory paths. Parent directories implicitly created by
mkdir(parents=True) for file writes are not tracked individually. -/
structure FS where
  files : List (String × String)
  dirs : List String
deriving Repr, DecidableEq

/-- Content of the file at a resolved path, if present. -/
def FS.getFile (fs : FS) (p : String) : Option String :=
  (fs.files.find? (fun kv => kv.1 == p)).map (·.2)

/-- Write (create or overwrite) the file at a resolved path. -/
def FS.setFile (fs : FS) (p v : String) : FS :=
  ⟨(p, v) :: fs.files.filter (fun kv => kv.1 != p), fs.dirs⟩

/-- Remove the file at a resolved path. -/
def FS.removeFile (fs : FS) (p : String) : FS :=
  ⟨fs.files.filter (fun kv => kv.1 != p), fs.dirs⟩

/-- Configuration of FileManager (file_manager.py __init__): the resolved
workspace, the backup switch, the resolved backup directory (in the
source a cwd-relative ./backups, independent of the workspace), and the
timestamp string datetime.now would produce for backup names. -/
structure FMConfig where
  workspace : String
  backupEnabled : Bool
  backupDir : String
  timestamp : String
deriving Repr, DecidableEq

/-- Python PurePath.is_absolute on POSIX. -/
def is_absolute_path (p : String) : Bool := p.data.head? == some '/'

/-- Model of FileManager._get_full_path (file_manager.py lines 37 to 42):
an absolute path is returned unchanged, a relative one is joined under
the workspace. Joining a lone dot is collapsed by pathlib, modelled by
the middle case; other spurious-dot normalisations of pathlib are outside
the model (no claim depends on them). -/
def get_full_path (ws p : String) : String :=
  if is_absolute_path p then p
  else if p == "." then ws
  else ws ++ "/" ++ p

/-- Last path component, Python Path.name. -/
def baseName (p : String) : String :=
  String.mk ((p.data.reverse.takeWhile (fun c => c != '/')).reverse)

/-- Model of FileManager._create_backup (file_manager.py lines 44 to 62):
nothing is done when backups are disabled or the file does not exist;
otherwise the file is copied to backupDir under name.timestamp.bak and
that path is returned. The except arm that logs a failed copy and
returns None corresponds to an I/O fault, outside the filesystem model. -/
def create_backup (cfg : FMConfig) (fs : FS) (fp : String) : Option String × FS :=
  match fs.getFile fp with
  | none => (none, fs)
  | some content =>
    if cfg.backupEnabled then
      let bp := cfg.backupDir ++ "/" ++ baseName fp ++ "." ++ cfg.timestamp ++ ".bak"
      (some bp, fs.setFile bp content)
    else (none, fs)

/-- Result record of a primitive or of FileAgent.execute, modelling the
Python result dictionaries: a field holding none models an absent key.
Modification timestamps and the per-item metadata of directory listings
are reduced to relative path lists; no claim consults them. -/
structure PyResult where
  success : Bool
  message : String
  path : Option String := none
  content : Option String := none
  size : Option Nat := none
  backup : Option String := none
  src_path : Option String := none
  dst_path : Option String := none
  files : Option (List String) := none
  directories : Option (List String) := none
  total_files : Option Nat := none
  total_directories : Option Nat := none
  ai_message : Option String := none
  operation : Option String := none
  ai_model : Option String := none
  executed_operations : Option (List String) := none
deriving Repr, DecidableEq

/-- Model of FileManager.create_file (file_manager.py lines 64 to 103):
back up an existing file, then write the content; the size reported by
stat is the UTF-8 byte length of the written content. The except arm is
an I/O fault, outside the model. -/
def create_file (cfg : FMConfig) (fs : FS) (path content : String) :
    PyResult × FS :=
  let fp := get_full_path cfg.workspace path
  let fs1 := if (fs.getFile fp).isSome then (create_backup cfg fs fp).2 else fs
  let fs2 := fs1.setFile fp content
  ({ success := true, message := "File created successfully: " ++ path,
     path := some fp, size := some content.utf8ByteSize }, fs2)

/-- Model of FileManager.read_file (file_manager.py lines 105 to 144). -/
def read_file (cfg : FMConfig) (fs : FS) (path : String) : PyResult × FS :=
  let fp := get_full_path cfg.workspace path
  match fs.getFile fp with
  | none =>
    ({ success := false, message := "File not found: " ++ path,
       path := some path }, fs)
  | some content =>
    ({ success := true, message := "File read successfully: " ++ path,
       path := some fp, content := some content,
       size := some content.utf8ByteSize }, fs)

/-- Model of FileManager.write_file (file_manager.py lines 146 to 187):
in write mode an existing file is backed up and replaced; in append mode
no backup is made and the content is appended to the existing content,
or to an empty file if the path did not exist. -/
def write_file (cfg : FMConfig) (fs : FS) (path content : String)
    (append : Bool) : PyResult × FS :=
  let fp := get_full_path cfg.workspace path
  let fs1 :=
    if (fs.getFile fp).isSome && !append then (create_backup cfg fs fp).2 else fs
  let newContent :=
    if append then ((fs1.getFile fp).getD "") ++ content else content
  let fs2 := fs1.setFile fp newContent
  let act := if append then "appended to" else "written to"
  ({ success := true,
     message := "Content " ++ act ++ " file successfully: " ++ path,
     path := some fp, size := some newContent.utf8ByteSize }, fs2)

/-- Model of FileManager.delete_file (file_manager.py lines 189 to 232):
a missing file yields a failure record with no backup key; an existing
file is backed up first and the backup key is added exactly when the
backup call returned a path. -/
def delete_file (cfg : FMConfig) (fs : FS) (path : String) : PyResult × FS :=
  let fp := get_full_path cfg.workspace path
  match fs.getFile fp with
  | none =>
    ({ success := false, message := "File not found: " ++ path,
       path := some path }, fs)
  | some _ =>
    let b := create_backup cfg fs fp
    let fs2 := b.2.removeFile fp
    ({ success := true, message := "File deleted successfully: " ++ path,
       path := some fp, backup := b.1 }, fs2)

/-- Model of FileManager.move_file (file_manager.py lines 234 to 280). -/
def move_file (cfg : FMConfig) (fs : FS) (srcPath dstPath : String) :
    PyResult × FS :=
  let sp := get_full_path cfg.workspace srcPath
  let dp := get_full_path cfg.workspace dstPath
  match fs.getFile sp with
  | none =>
    ({ success := false, message := "Source file not found: " ++ srcPath,
       src_path := some srcPath }, fs)
  | some content =>
    let fs1 := if (fs.getFile dp).isSome then (create_backup cfg fs dp).2 else fs
    let fs2 := (fs1.removeFile sp).setFile dp content
    ({ success := true,
       message := "File moved successfully from " ++ srcPath ++ " to " ++ dstPath,
       src_path := some sp, dst_path := some dp }, fs2)

/-- Model of FileManager.copy_file (file_manager.py lines 282 to 329). -/
def copy_file (cfg : FMConfig) (fs : FS) (srcPath dstPath : String) :
    PyResult × FS :=
  let sp := get_full_path cfg.workspace srcPath
  let dp := get_full_path cfg.workspace dstPath
  match fs.getFile sp with
  | none =>
    ({ success := false, message := "Source file not found: " ++ srcPath,
       src_path := some srcPath }, fs)
  | some content =>
    let fs1 := if (fs.getFile dp).isSome then (create_backup cfg fs dp).2 else fs
    let fs2 := fs1.setFile dp content
    ({ success := true,
       message := "File copied successfully from " ++ srcPath ++ " to " ++ dstPath,
       src_path := some sp, dst_path := some dp,
       size := some content.utf8ByteSize }, fs2)

/-- Model of FileManager.create_directory (file_manager.py lines 331
to 357); mkdir with exist_ok never fails in the model. -/
def create_directory (cfg : FMConfig) (fs : FS) (path : String) :
    PyResult × FS :=
  let dp := get_full_path cfg.workspace path
  let fs2 := if fs.dirs.contains dp then fs else ⟨fs.files, dp :: fs.dirs⟩
  ({ success := true, message := "Directory created successfully: " ++ path,
     path := some dp }, fs2)

/-- Is e a direct child of directory dp, i.e. dp, a slash, then a
nonempty name without further slashes? -/
def isChildOf (dp e : String) : Bool :=
  (dp ++ "/").data.isPrefixOf e.data &&
  (let name := e.data.drop (dp.data.length + 1)
   !name.isEmpty && name.all (fun c => c != '/'))

/-- Is e a strict descendant of directory dp? -/
def isDescendantOf (dp e : String) : Bool :=
  (dp ++ "/").data.isPrefixOf e.data && e.data.length > dp.data.length + 1

/-- Shell glob pattern matching as used by Path.glob, modelled for the
pattern forms this code produces: a lone star matches everything, a
pattern opening with a star matches names ending in its remainder, and
any other pattern matches only the identical name. -/
def match_glob (pattern name : String) : Bool :=
  if pattern == "*" then true
  else if firstCharIs pattern '*' then
    ((pattern.data.drop 1).reverse.isPrefixOf name.data.reverse)
  else pattern == name

/-- Python Path.relative_to(ws): strip the workspace from the front or
raise ValueError; the exception text is abbreviated in the model. -/
def relative_to (ws p : String) : Option String :=
  if p == ws then some "."
  else if (ws ++ "/").data.isPrefixOf p.data then
    some (String.mk (p.data.drop (ws.data.length + 1)))
  else none

/-- Model of FileManager.list_files (file_manager.py lines 359 to 428):
existence and directory checks on the resolved path, then enumeration of
direct children (or of all descendants when recursive) whose final name
matches the pattern; every item is re-expressed relative to the
workspace, and an item outside the workspace raises ValueError, caught
as a generic listing failure. Enumeration order follows the model state
(the OS order of glob is unspecified). -/
def list_files (cfg : FMConfig) (fs : FS) (path pattern : String)
    (recursive : Bool) : PyResult × FS :=
  let dp := get_full_path cfg.workspace path
  if !(fs.dirs.contains dp) && !(fs.getFile dp).isSome then
    ({ success := false, message := "Directory not found: " ++ path,
       path := some path }, fs)
  else if !(fs.dirs.contains dp) then
    ({ success := false, message := "Path is not a directory: " ++ path,
       path := some path }, fs)
  else
    let within := fun e => if recursive then isDescendantOf dp e else isChildOf dp e
    let fileItems := (fs.files.map (·.1)).filter
      (fun e => within e && match_glob pattern (baseName e))
    let dirItems := fs.dirs.filter
      (fun e => within e && match_glob pattern (baseName e))
    let rels := (fileItems ++ dirItems).map (relative_to cfg.workspace)
    if rels.contains none then
      ({ success := false,
         message := "Failed to list directory: item is not in the subpath of "
           ++ cfg.workspace, path := some path }, fs)
    else
      ({ success := true, message := "Directory listing for: " ++ path,
         path := some dp,
         files := some (fileItems.map (fun e => (relative_to cfg.workspace e).getD e)),
         directories := some (dirItems.map (fun e => (relative_to cfg.workspace e).getD e)),
         total_files := some fileItems.length,
         total_directories := some dirItems.length }, fs)

/-- Operation names registered in self.file_operations (agent.py lines
47 to 56), in dictionary insertion order. -/
def registered_operations : List String :=
  ["create_file", "read_file", "write_file", "delete_file",
   "move_file", "copy_file", "create_directory", "list_files"]

/-- Marker opening every directive, as a character list. -/
def execMarker : List Char := "EXECUTE:".data

/-- Lazy scan of the directive argument capture (the dot-star-question
group of the pattern at agent.py line 292, compiled with DOTALL): the
capture stops at the first closing parenthesis that is followed by a
whitespace character (consumed) or by the end of the text; any other
closing parenthesis is swallowed by the capture. Returns the capture and
the characters after the whole match. -/
def scanExecArgs : Nat → List Char → Option (List Char × List Char)
  | 0, _ => none
  | _, [] => none
  | fuel + 1, c :: cs =>
    if c == ')' then
      match cs with
      | [] => some ([], [])
      | d :: t =>
        if isPySpace d then some ([], t)
        else
          match scanExecArgs fuel cs with
          | some (a, r) => some (c :: a, r)
          | none => none
    else
      match scanExecArgs fuel cs with
      | some (a, r) => some (c :: a, r)
      | none => none

/-- Attempt a whole directive match at the head of the list: the marker,
greedy whitespace, a nonempty word-character operation name, an opening
parenthesis, then the lazy argument capture. Returns operation name,
argument text, and the remainder after the match. -/
def directiveAt (cs : List Char) : Option (String × String × List Char) :=
  if execMarker.isPrefixOf cs then
    let r1 := (cs.drop execMarker.length).dropWhile isPySpace
    let nm := r1.takeWhile isWordChar
    if nm.isEmpty then none
    else
      match r1.drop nm.length with
      | '(' :: r2 =>
        match scanExecArgs (r2.length + 1) r2 with
        | some (a, rest) => some (String.mk nm, String.mk a, rest)
        | none => none
      | _ => none
  else none

/-- Successive non-overlapping leftmost directive matches. -/
def findDirectivesAux : Nat → List Char → List (String × String)
  | 0, _ => []
  | _, [] => []
  | fuel + 1, c :: cs =>
    match directiveAt (c :: cs) with
    | some (nm, a, rest) => (nm, a) :: findDirectivesAux fuel rest
    | none => findDirectivesAux fuel cs

/-- re.findall of the directive pattern (agent.py lines 292 to 293). -/
def find_execute_directives (text : String) : List (String × String) :=
  findDirectivesAux text.data.length text.data

/-- Model of ast.literal_eval applied to a bracketed argument text
(agent.py line 315), restricted to the grammar the directives of this
system exercise: a comma-separated sequence of quoted string literals
(either quote kind, no escape sequences), optional surrounding
whitespace, optionally a trailing comma. Number, boolean and container
literals, which no claim exercises, are outside the model and take the
except fallback below. -/
def literalEvalItems : Nat → List Char → Option (List String)
  | 0, _ => none
  | fuel + 1, cs =>
    let cs1 := cs.dropWhile isPySpace
    match cs1 with
    | q :: rest =>
      if q == '"' || q == squote then
        let content := rest.takeWhile (fun c => c != q)
        match rest.drop content.length with
        | _ :: rest3 =>
          let rest4 := rest3.dropWhile isPySpace
          match rest4 with
          | [] => some [String.mk content]
          | ',' :: rest5 =>
            if (rest5.dropWhile isPySpace).isEmpty then some [String.mk content]
            else (literalEvalItems fuel rest5).map (String.mk content :: ·)
          | _ => none
        | [] => none
      else none
    | [] => none

/-- Splitting worker: cut the subject at every leftmost non-overlapping
occurrence of the separator, accumulating the current piece reversed. -/
def splitOnSepAux (sep : List Char) : Nat → List Char → List Char → List (List Char)
  | _, acc, [] => [acc.reverse]
  | 0, acc, rest => [acc.reverse ++ rest]
  | fuel + 1, acc, c :: cs =>
    if sep.isPrefixOf (c :: cs) then
      acc.reverse :: splitOnSepAux sep fuel [] ((c :: cs).drop sep.length)
    else splitOnSepAux sep fuel (c :: acc) cs

/-- Python str.split with a nonempty separator string. -/
def splitOnSep (sep cs : List Char) : List (List Char) :=
  splitOnSepAux sep (cs.length + 1) [] cs

/-- Model of the layered argument parsing at agent.py lines 299 to 318:
an empty (after stripping) argument text gives no parameters; an
argument text opening with a double quote and containing the
quote-comma-quote separator is split on that separator with double
quotes stripped from each part; a text both opening and closing with a
double quote is a single parameter; otherwise the text is handed to the
literal-list parse, and if that fails, split naively on commas with
whitespace and both quote kinds stripped from each token. -/
def parse_exec_params (args : String) : List String :=
  let a := pyStrip args
  if a == "" then []
  else if firstCharIs a '"' && strContains a (String.mk ['"', ',', ' ', '"']) then
    (splitOnSep (String.mk ['"', ',', ' ', '"']).data a.data).map
      (fun part => pyStripChars ['"'] (String.mk part))
  else if firstCharIs a '"' && lastCharIs a '"' then
    [pyStripChars ['"'] a]
  else
    match literalEvalItems a.data.length a.data with
    | some vs => vs
    | none =>
      (splitOnSep [','] a.data).map
        (fun p => pyStripChars ['"', squote] (pyStrip (String.mk p)))

/-- Model of the per-directive execution (agent.py lines 295 to 350). An
unregistered operation name is skipped before any parsing. For a
registered name the arguments are parsed and the branch for that name
runs only when its arity condition holds; a registered directive fitting
no branch (wrong arity, or the registered write_file, which has no
branch at all) is skipped silently. Each executed branch appends one
check-marked outcome line built from the primitive result. The except
arm producing a cross-marked line is reachable only through raised
exceptions (I/O faults, non-string literal arguments), outside this
model. Returns the outcome lines (zero or one) and the new state. -/
def execute_directive (cfg : FMConfig) (fs : FS) (name args : String) :
    List String × FS :=
  if ¬ (name ∈ registered_operations) then ([], fs)
  else
    let ps := parse_exec_params args
    if name = "create_file" ∧ 1 ≤ ps.length then
      let r := create_file cfg fs (ps.getD 0 "") (ps.getD 1 "")
      (["✓ create_file: " ++ r.1.message], r.2)
    else if name = "list_files" then
      let r := list_files cfg fs (ps.getD 0 ".") (ps.getD 1 "*") false
      (["✓ list_files: Found " ++ toString (r.1.total_files.getD 0) ++ " files"],
       r.2)
    else if (name = "read_file" ∨ name = "delete_file") ∧ 1 ≤ ps.length then
      let r := if name = "read_file" then read_file cfg fs (ps.getD 0 "")
               else delete_file cfg fs (ps.getD 0 "")
      (["✓ " ++ name ++ ": " ++ r.1.message], r.2)
    else if (name = "move_file" ∨ name = "copy_file") ∧ 2 ≤ ps.length then
      let r := if name = "move_file" then
                 move_file cfg fs (ps.getD 0 "") (ps.getD 1 "")
               else copy_file cfg fs (ps.getD 0 "") (ps.getD 1 "")
      (["✓ " ++ name ++ ": " ++ r.1.message], r.2)
    else if name = "create_directory" ∧ 1 ≤ ps.length then
      let r := create_directory cfg fs (ps.getD 0 "")
      (["✓ create_directory: " ++ r.1.message], r.2)
    else ([], fs)

/-- Run every extracted directive in order, threading the filesystem and
concatenating the outcome lines (the executed_operations list). -/
def process_directives (cfg : FMConfig) (fs : FS) :
    List (String × String) → List String × FS
  | [] => ([], fs)
  | d :: rest =>
    let e := execute_directive cfg fs d.1 d.2
    let m := process_directives cfg e.2 rest
    (e.1 ++ m.1, m.2)

/-- Model of the substitution at agent.py line 356. The pattern there is
the marker, a lazy dot-star, then an optional newline; because the lazy
group prefers emptiness and the optional newline can also match
emptiness, each match consumes exactly the literal marker, plus one
newline when the very next character is one. The scan resumes at the
character after each removal, as re.sub does with an empty replacement. -/
def stripExecAux : Nat → List Char → List Char
  | 0, cs => cs
  | _, [] => []
  | fuel + 1, c :: cs =>
    if execMarker.isPrefixOf (c :: cs) then
      let rest := (c :: cs).drop execMarker.length
      match rest with
      | d :: t =>
        if d == Char.ofNat 10 then stripExecAux fuel t
        else stripExecAux fuel rest
      | [] => []
    else c :: stripExecAux fuel cs

/-- re.sub removing directive markers from the displayed response text. -/
def strip_execute_tags (s : String) : String :=
  String.mk (stripExecAux s.data.length s.data)

/-- Response record of AIProvider.generate_response. Every provider in
ai_providers.py wraps its API call in a try/except returning success
False with an error string on any exception, so a raised exception never
escapes a provider; usage metadata is not consulted by any claim and is
omitted. The error field holding none models an absent error key, read
back through dict.get with the default Unknown error. -/
structure AIResponse where
  success : Bool
  response : String := ""
  error : Option String := none
  modelName : Option String := none
deriving Repr, DecidableEq

/-- The two AI calls one execution can make, as oracle values: the
secondary friendly-confirmation call of the direct path and the main
enhanced-prompt call of the fallback path. -/
structure AIOracle where
  enrichResponse : AIResponse
  mainResponse : AIResponse
deriving Repr, DecidableEq

/-- Model of the post-dispatch enrichment (agent.py lines 227 to 234): on
a successful primitive result with an AI provider configured, a
confirmation response that itself succeeded is attached under the
ai_message key; a failed confirmation response changes nothing. -/
def enrich_result (r : PyResult) (aiConfigured : Bool) (enrich : AIResponse) :
    PyResult :=
  if r.success && aiConfigured then
    if enrich.success then { r with ai_message := some enrich.response } else r
  else r

/-- Model of the ai_process branch of FileAgent.execute (agent.py lines
238 to 366): without a provider, or on a failed AI call, a failure
record; otherwise the response text is scanned for directives, the
directives are executed, and when at least one outcome line exists the
marker-stripped, whitespace-stripped text gets the outcome block
appended. The success flag of the assembled record is the literal True
of line 360. The enhanced prompt built from the utterance only feeds the
oracle and does not influence the model result. -/
def ai_process_execute (cfg : FMConfig) (aiConfigured : Bool)
    (resp : AIResponse) (fs : FS) (_prompt : String) : PyResult × FS :=
  if !aiConfigured then
    ({ success := false, message := "AI provider not configured",
       operation := some "ai_process" }, fs)
  else if !resp.success then
    ({ success := false, message := resp.error.getD "Unknown error",
       operation := some "ai_process", ai_model := resp.modelName }, fs)
  else
    let text := resp.response
    let ds := find_execute_directives text
    let pd := process_directives cfg fs ds
    let finalMessage :=
      if pd.1.isEmpty then text
      else pyStrip (strip_execute_tags text) ++ "\n\n执行的操作：\n"
        ++ String.intercalate "\n" pd.1
    ({ success := true, message := finalMessage,
       operation := some "ai_process", ai_model := resp.modelName,
       executed_operations := some pd.1 }, pd.2)

/-- Direct dispatch through self.file_operations (agent.py line 225) for
a classified primitive command, with keyword parameters as classified;
list_files receives the default pattern. -/
def run_file_operation (cfg : FMConfig) (fs : FS) (op : PrimOp) :
    PyResult × FS :=
  match op with
  | PrimOp.createFileOp p c => create_file cfg fs p c
  | PrimOp.createDirectoryOp p => create_directory cfg fs p
  | PrimOp.readFileOp p => read_file cfg fs p
  | PrimOp.listFilesOp p rec => list_files cfg fs p "*" rec
  | PrimOp.deleteFileOp p => delete_file cfg fs p
  | PrimOp.copyFileOp s d => copy_file cfg fs s d

/-- Model of FileAgent.execute (agent.py lines 205 to 381): classify,
then either dispatch the primitive and enrich the result, or run the AI
fallback. The defensive unknown-operation branch is unreachable because
the classifier type covers exactly the emitted commands, and the
top-level except arm is unreachable because every modelled step is
total. -/
def agent_execute (cfg : FMConfig) (aiConfigured : Bool) (oracle : AIOracle)
    (fs : FS) (user_input : String) : PyResult × FS :=
  match parse_command user_input with
  | AgentCommand.prim op =>
    let r := run_file_operation cfg fs op
    (enrich_result r.1 aiConfigured oracle.enrichResponse, r.2)
  | AgentCommand.aiProcess prompt =>
    ai_process_execute cfg aiConfigured oracle.mainResponse fs prompt

/-- Reading back the key just written returns the written value. -/
theorem FS.getFile_setFile_self (fs : FS) (p v : String) :
    (fs.setFile p v).getFile p = some v := by
  simp [FS.setFile, FS.getFile, List.find?]

/-- Enrichment never changes the success flag or the primary message. -/
theorem enrich_result_preserves (r : PyResult) (b : Bool) (e : AIResponse) :
    (enrich_result r b e).success = r.success ∧
    (enrich_result r b e).message = r.message := by
  unfold enrich_result
  split
  · split
    · exact ⟨rfl, rfl⟩
    · exact ⟨rfl, rfl⟩
  · exact ⟨rfl, rfl⟩

/-- A directive naming an unregistered operation changes nothing. -/
theorem execute_directive_unregistered (cfg : FMConfig) (fs : FS)
    (name args : String) (h : ¬ name ∈ registered_operations) :
    execute_directive cfg fs name args = ([], fs) := by
  unfold execute_directive
  rw [if_pos h]

/-- The disjunction of the branch guards of the per-directive executor:
exactly when it holds for the parsed parameters is a registered
directive actually attempted. -/
def attempted_condition (name : String) (ps : List String) : Prop :=
  (name = "create_file" ∧ 1 ≤ ps.length) ∨
  name = "list_files" ∨
  ((name = "read_file" ∨ name = "delete_file") ∧ 1 ≤ ps.length) ∨
  ((name = "move_file" ∨ name = "copy_file") ∧ 2 ≤ ps.length) ∨
  (name = "create_directory" ∧ 1 ≤ ps.length)

instance (name : String) (ps : List String) :
    Decidable (attempted_condition name ps) := by
  unfold attempted_condition
  infer_instance

/-- Claim C5: for every AI-fallback execution in which the call to the AI
backend succeeds, the returned result has success equal to true,
regardless of how many extracted directives failed or succeeded (the
directive list and their outcomes are arbitrary here, bound inside the
quantified response and state). -/
theorem c5_ai_success_flag_always_true (cfg : FMConfig) (resp : AIResponse)
    (fs : FS) (prompt : String) (h : resp.success = true) :
    (ai_process_execute cfg true resp fs prompt).1.success = true := by
  simp [ai_process_execute, h]

/-- Witness for C5 at a concrete failing directive: the sole extracted
directive is skipped, yet the call succeeds. -/
theorem c5_witness :
    ({ success := true, response := "EXECUTE: create_file()" } : AIResponse).success = true ∧
    (ai_process_execute ⟨"/ws", true, "/backups", "t0"⟩ true
      { success := true, response := "EXECUTE: create_file()" }
      ⟨[], ["/ws"]⟩ "p").1.success = true :=
  ⟨rfl, c5_ai_success_flag_always_true ⟨"/ws", true, "/backups", "t0"⟩
    { success := true, response := "EXECUTE: create_file()" } ⟨[], ["/ws"]⟩ "p" rfl⟩

/-- Claim C6: a directive whose operation name is not registered causes
no invocation and no outcome line: executing it alone leaves the state
unchanged with no lines, and inside any directive list it can be removed
without changing the outcome lines or the final state. -/
theorem c6_unregistered_directive_ignored (cfg : FMConfig) (fs : FS)
    (name args : String) (ds1 ds2 : List (String × String))
    (h : ¬ name ∈ registered_operations) :
    execute_directive cfg fs name args = ([], fs) ∧
    process_directives cfg fs (ds1 ++ (name, args) :: ds2) =
      process_directives cfg fs (ds1 ++ ds2) := by
  refine ⟨execute_directive_unregistered cfg fs name args h, ?_⟩
  induction ds1 generalizing fs with
  | nil =>
    simp [process_directives, execute_directive_unregistered cfg fs name args h]
  | cons d rest ih =>
    simp [process_directives, ih]

/-- Witness for C6: the unregistered format_disk directive of the spec
example is dropped from a directive list without any effect. -/
theorem c6_witness :
    ¬ "format_disk" ∈ registered_operations ∧
    (execute_directive ⟨"/ws", true, "/backups", "t0"⟩ ⟨[], ["/ws"]⟩
        "format_disk" "" = ([], ⟨[], ["/ws"]⟩) ∧
     process_directives ⟨"/ws", true, "/backups", "t0"⟩ ⟨[], ["/ws"]⟩
        ([] ++ ("format_disk", "") :: []) =
     process_directives ⟨"/ws", true, "/backups", "t0"⟩ ⟨[], ["/ws"]⟩ ([] ++ [])) :=
  ⟨by decide,
   c6_unregistered_directive_ignored ⟨"/ws", true, "/backups", "t0"⟩ ⟨[], ["/ws"]⟩
     "format_disk" "" [] [] (by decide)⟩

/-- Counterexample to claim C2: the response text carries one EXECUTE
directive for the registered copy_file with a single argument (wrong
arity). The claim predicts an inline failed sub-operation in the outcome
list; the code records no outcome at all (the list of executed
operations is empty) while still returning success, so the directive was
skipped silently, not reported. -/
theorem c2_wrong_arity_not_reported :
    (ai_process_execute ⟨"/ws", true, "/backups", "t0"⟩ true
      { success := true, response := "EXECUTE: copy_file(\"a.txt\")" }
      ⟨[], ["/ws"]⟩ "p").1.executed_operations = some [] ∧
    (ai_process_execute ⟨"/ws", true, "/backups", "t0"⟩ true
      { success := true, response := "EXECUTE: copy_file(\"a.txt\")" }
      ⟨[], ["/ws"]⟩ "p").1.success = true := by
  constructor
  · rfl
  · rfl

/-- Claim C2 as amended: a registered directive whose parsed argument
list satisfies no branch guard (wrong arity; also the registered
write_file, which has no branch) is skipped silently, contributing no
outcome line and no state change, and the overall AI-fallback call still
returns success. -/
theorem c2_amended_wrong_arity_skipped (cfg : FMConfig) (fs : FS)
    (name args : String) (resp : AIResponse) (prompt : String)
    (hreg : name ∈ registered_operations)
    (h : ¬ attempted_condition name (parse_exec_params args))
    (hresp : resp.success = true) :
    execute_directive cfg fs name args = ([], fs) ∧
    (ai_process_execute cfg true resp fs prompt).1.success = true := by
  constructor
  · unfold execute_directive
    rw [if_neg (not_not_intro hreg)]
    rw [if_neg (fun hc => h (Or.inl hc))]
    rw [if_neg (fun hc => h (Or.inr (Or.inl hc)))]
    rw [if_neg (fun hc => h (Or.inr (Or.inr (Or.inl hc))))]
    rw [if_neg (fun hc => h (Or.inr (Or.inr (Or.inr (Or.inl hc)))))]
    rw [if_neg (fun hc => h (Or.inr (Or.inr (Or.inr (Or.inr hc)))))]
  · simp [ai_process_execute, hresp]

/-- Witness for the amended C2 on the one-argument copy_file directive. -/
theorem c2_amended_witness :
    "copy_file" ∈ registered_operations ∧
    ¬ attempted_condition "copy_file" (parse_exec_params "\"a.txt\"") ∧
    (execute_directive ⟨"/ws", true, "/backups", "t0"⟩ ⟨[], ["/ws"]⟩
        "copy_file" "\"a.txt\"" = ([], ⟨[], ["/ws"]⟩) ∧
     (ai_process_execute ⟨"/ws", true, "/backups", "t0"⟩ true
        { success := true, response := "ok" } ⟨[], ["/ws"]⟩ "p").1.success = true) :=
  ⟨by decide, by decide,
   c2_amended_wrong_arity_skipped ⟨"/ws", true, "/backups", "t0"⟩ ⟨[], ["/ws"]⟩
     "copy_file" "\"a.txt\"" { success := true, response := "ok" } "p"
     (by decide) (by decide) rfl⟩

/-- Counterexample to claim C3: the utterance asks to create a folder
named docs, using the folder keyword 文件夹 and one quoted token. The
claim predicts create_directory with path docs; the classifier instead
falls into the create-file branch (文件夹 contains the file keyword 文件
as a substring), fails to find a filename-shaped token, and emits the AI
fallback. -/
theorem c3_folder_keyword_misroutes :
    parse_command "创建一个\"docs\"文件夹" =
      AgentCommand.aiProcess "创建一个\"docs\"文件夹" ∧
    parse_command "创建一个\"docs\"文件夹" ≠
      AgentCommand.prim (PrimOp.createDirectoryOp "docs") := by
  constructor
  · rfl
  · decide

/-- Claim C3 as amended: restricted to utterances that contain the
create keyword and the directory keyword 目录 but not the substring 文件
(which rules the folder keyword 文件夹 out, since it contains 文件), a
quoted token present makes classification emit create_directory with the
first quoted token as path. -/
theorem c3_amended_directory_rule (s d : String)
    (h1 : strContains (pyStrip (pyLower s)) "创建" = true)
    (h2 : strContains (pyStrip (pyLower s)) "文件" = false)
    (h3 : strContains (pyStrip (pyLower s)) "目录" = true)
    (h4 : search_quoted (pyStrip s) = some d) :
    parse_command s = AgentCommand.prim (PrimOp.createDirectoryOp d) := by
  simp [parse_command, h1, h2, h3, h4]

/-- Witness for the amended C3 on a create-directory utterance. -/
theorem c3_amended_directory_rule_witness :
    strContains (pyStrip (pyLower "创建\"docs\"目录")) "创建" = true ∧
    strContains (pyStrip (pyLower "创建\"docs\"目录")) "文件" = false ∧
    strContains (pyStrip (pyLower "创建\"docs\"目录")) "目录" = true ∧
    search_quoted (pyStrip "创建\"docs\"目录") = some "docs" ∧
    parse_command "创建\"docs\"目录" =
      AgentCommand.prim (PrimOp.createDirectoryOp "docs") :=
  ⟨by decide, by decide, by decide, by decide,
   c3_amended_directory_rule "创建\"docs\"目录" "docs"
     (by decide) (by decide) (by decide) (by decide)⟩

/-- A classification rule fired on its keywords (with every earlier rule
of the elif chain declined) but failed to extract its required quoted
token or tokens. The Boolean equations are exactly the branch conditions
of parse_command on the lower-cased stripped working copy, and the
extraction facts are about the original-case stripped input. -/
def rule_fired_without_token (s : String) : Prop :=
  let w := pyStrip (pyLower s)
  let o := pyStrip s
  ((strContains w "创建" && strContains w "文件") = true ∧
    search_quoted_filename o = none) ∨
  ((strContains w "创建" && strContains w "文件") = false ∧
    (strContains w "创建" && (strContains w "目录" || strContains w "文件夹")) = true ∧
    search_quoted o = none) ∨
  ((strContains w "创建" && strContains w "文件") = false ∧
    (strContains w "创建" && (strContains w "目录" || strContains w "文件夹")) = false ∧
    (strContains w "读取" || strContains w "查看") = true ∧
    search_quoted_filename o = none) ∨
  ((strContains w "创建" && strContains w "文件") = false ∧
    (strContains w "创建" && (strContains w "目录" || strContains w "文件夹")) = false ∧
    (strContains w "读取" || strContains w "查看") = false ∧
    (strContains w "列出" || strContains w "显示") = false ∧
    strContains w "删除" = true ∧
    search_quoted_filename o = none) ∨
  ((strContains w "创建" && strContains w "文件") = false ∧
    (strContains w "创建" && (strContains w "目录" || strContains w "文件夹")) = false ∧
    (strContains w "读取" || strContains w "查看") = false ∧
    (strContains w "列出" || strContains w "显示") = false ∧
    strContains w "删除" = false ∧
    (strContains w "复制" || strContains w "拷贝") = true ∧
    (findall_quoted_filenames o).length < 2)

/-- Claim C7: whenever a rule fires on keywords but fails to extract its
required tokens, classification emits the AI fallback whose prompt is
the whitespace-stripped original utterance with its casing preserved,
never a malformed primitive command. -/
theorem c7_failed_extraction_falls_back (s : String)
    (h : rule_fired_without_token s) :
    parse_command s = AgentCommand.aiProcess (pyStrip s) := by
  unfold rule_fired_without_token at h
  rcases h with ⟨hb, hex⟩ | ⟨h1, hb, hex⟩ | ⟨h1, h2, hb, hex⟩ |
    ⟨h1, h2, h3, h4, hb, hex⟩ | ⟨h1, h2, h3, h4, h5, hb, hlen⟩
  · simp [parse_command, hb, hex]
  · simp [parse_command, h1, hb, hex]
  · simp [parse_command, h1, h2, hb, hex]
  · simp [parse_command, h1, h2, h3, h4, hb, hex]
  · rcases hm : findall_quoted_filenames (pyStrip s) with _ | ⟨a, _ | ⟨b, t⟩⟩
    · simp [parse_command, h1, h2, h3, h4, h5, hb, hm]
    · simp [parse_command, h1, h2, h3, h4, h5, hb, hm]
    · rw [hm] at hlen
      simp at hlen
      omega

/-- Witness for C7 on a delete utterance without any quoted filename. -/
theorem c7_witness :
    rule_fired_without_token "删除那个东西" ∧
    parse_command "删除那个东西" = AgentCommand.aiProcess (pyStrip "删除那个东西") :=
  ⟨by unfold rule_fired_without_token; decide,
   c7_failed_extraction_falls_back "删除那个东西"
     (by unfold rule_fired_without_token; decide)⟩

/-- Claim C4: for a direct filesystem command whose primitive invocation
succeeds, the coordinator's result keeps the primitive's success flag
and primary message whatever the confirmation oracle answers; a failed
or error-bearing enrichment response never turns the result into a
failure. -/
theorem c4_enrichment_never_breaks_success (cfg : FMConfig) (b : Bool)
    (oracle : AIOracle) (fs : FS) (s : String) (op : PrimOp)
    (hp : parse_command s = AgentCommand.prim op)
    (hs : (run_file_operation cfg fs op).1.success = true) :
    (agent_execute cfg b oracle fs s).1.success = true ∧
    (agent_execute cfg b oracle fs s).1.message =
      (run_file_operation cfg fs op).1.message := by
  unfold agent_execute
  rw [hp]
  refine ⟨?_, ?_⟩
  · show (enrich_result (run_file_operation cfg fs op).1 b
      oracle.enrichResponse).success = true
    rw [(enrich_result_preserves _ _ _).1, hs]
  · exact (enrich_result_preserves _ _ _).2

/-- Witness for C4: a successful read command whose confirmation call
fails with an error record; the result is still the primitive's. -/
theorem c4_witness :
    parse_command "查看\"a.txt\"" = AgentCommand.prim (PrimOp.readFileOp "a.txt") ∧
    (run_file_operation ⟨"/ws", true, "/backups", "t0"⟩
      ⟨[("/ws/a.txt", "hi")], ["/ws"]⟩ (PrimOp.readFileOp "a.txt")).1.success = true ∧
    ((agent_execute ⟨"/ws", true, "/backups", "t0"⟩ true
        ⟨{ success := false, error := some "boom" }, { success := true }⟩
        ⟨[("/ws/a.txt", "hi")], ["/ws"]⟩ "查看\"a.txt\"").1.success = true ∧
     (agent_execute ⟨"/ws", true, "/backups", "t0"⟩ true
        ⟨{ success := false, error := some "boom" }, { success := true }⟩
        ⟨[("/ws/a.txt", "hi")], ["/ws"]⟩ "查看\"a.txt\"").1.message =
       (run_file_operation ⟨"/ws", true, "/backups", "t0"⟩
         ⟨[("/ws/a.txt", "hi")], ["/ws"]⟩ (PrimOp.readFileOp "a.txt")).1.message) :=
  ⟨by decide, by decide,
   c4_enrichment_never_breaks_success ⟨"/ws", true, "/backups", "t0"⟩ true
     ⟨{ success := false, error := some "boom" }, { success := true }⟩
     ⟨[("/ws/a.txt", "hi")], ["/ws"]⟩ "查看\"a.txt\"" (PrimOp.readFileOp "a.txt")
     (by decide) (by decide)⟩

/-- A string extended by the backup extension is never empty. -/
theorem append_bak_ne_empty (a : String) : a ++ ".bak" ≠ "" := by
  intro h
  have hl : (a ++ ".bak").length = 0 := by rw [h]; rfl
  rw [String.length_append] at hl
  have h4 : (".bak" : String).length = 4 := rfl
  omega

/-- Every list is a Boolean prefix of itself extended on the right. -/
theorem isPrefixOf_append_self (l t : List Char) :
    l.isPrefixOf (l ++ t) = true := by
  induction l with
  | nil => simp [List.isPrefixOf]
  | cons a l ih => simp [List.isPrefixOf, ih]

/-- Claim C8: with backups enabled, deleting an existing file succeeds
and the result carries a nonempty backup path, while deleting a missing
path fails with the not-found message and carries no backup field. -/
theorem c8_delete_backup_contract (cfg : FMConfig) (fs : FS) (path : String)
    (hb : cfg.backupEnabled = true) :
    ((fs.getFile (get_full_path cfg.workspace path)).isSome = true →
      (delete_file cfg fs path).1.success = true ∧
      ∃ bp, (delete_file cfg fs path).1.backup = some bp ∧ bp ≠ "") ∧
    (fs.getFile (get_full_path cfg.workspace path) = none →
      (delete_file cfg fs path).1.success = false ∧
      (delete_file cfg fs path).1.message = "File not found: " ++ path ∧
      (delete_file cfg fs path).1.backup = none) := by
  constructor
  · intro h
    obtain ⟨c, hc⟩ := Option.isSome_iff_exists.mp h
    simp [delete_file, create_backup, hc, hb]
    exact append_bak_ne_empty _
  · intro h
    simp [delete_file, h]

/-- Witness for C8 at both sides of the contract: an existing file and a
missing one, with backups enabled. -/
theorem c8_witness :
    (⟨"/ws", true, "/b", "t0"⟩ : FMConfig).backupEnabled = true ∧
    ((FS.mk [("/ws/a.txt", "x")] ["/ws"]).getFile
        (get_full_path "/ws" "a.txt")).isSome = true ∧
    (FS.mk [("/ws/a.txt", "x")] ["/ws"]).getFile
        (get_full_path "/ws" "b.txt") = none ∧
    ((delete_file ⟨"/ws", true, "/b", "t0"⟩ ⟨[("/ws/a.txt", "x")], ["/ws"]⟩
        "a.txt").1.success = true ∧
      ∃ bp, (delete_file ⟨"/ws", true, "/b", "t0"⟩ ⟨[("/ws/a.txt", "x")], ["/ws"]⟩
        "a.txt").1.backup = some bp ∧ bp ≠ "") ∧
    ((delete_file ⟨"/ws", true, "/b", "t0"⟩ ⟨[("/ws/a.txt", "x")], ["/ws"]⟩
        "b.txt").1.success = false ∧
     (delete_file ⟨"/ws", true, "/b", "t0"⟩ ⟨[("/ws/a.txt", "x")], ["/ws"]⟩
        "b.txt").1.message = "File not found: " ++ "b.txt" ∧
     (delete_file ⟨"/ws", true, "/b", "t0"⟩ ⟨[("/ws/a.txt", "x")], ["/ws"]⟩
        "b.txt").1.backup = none) :=
  ⟨rfl, by decide, by decide,
   (c8_delete_backup_contract ⟨"/ws", true, "/b", "t0"⟩
     ⟨[("/ws/a.txt", "x")], ["/ws"]⟩ "a.txt" rfl).1 (by decide),
   (c8_delete_backup_contract ⟨"/ws", true, "/b", "t0"⟩
     ⟨[("/ws/a.txt", "x")], ["/ws"]⟩ "b.txt" rfl).2 (by decide)⟩

/-- Claim C9: creating a file then reading the same path returns exactly
the written content, for every workspace, prior state, path and content;
and appending to an existing file then reading returns the prior content
followed by the extension, of which the prior content is a prefix. -/
theorem c9_create_read_roundtrip_append (cfg : FMConfig) (fs : FS)
    (path content extra prior : String) :
    ((read_file cfg (create_file cfg fs path content).2 path).1.success = true ∧
     (read_file cfg (create_file cfg fs path content).2 path).1.content =
       some content) ∧
    (fs.getFile (get_full_path cfg.workspace path) = some prior →
      (read_file cfg (write_file cfg fs path extra true).2 path).1.content =
        some (prior ++ extra) ∧
      prior.data.isPrefixOf (prior ++ extra).data = true) := by
  constructor
  · simp [read_file, create_file, FS.getFile_setFile_self]
  · intro h
    constructor
    · simp [read_file, write_file, h, FS.getFile_setFile_self]
    · rw [String.data_append]
      exact isPrefixOf_append_self _ _

/-- Witness for C9: round trip and append on concrete contents. -/
theorem c9_witness :
    (((read_file ⟨"/ws", true, "/b", "t0"⟩
        (create_file ⟨"/ws", true, "/b", "t0"⟩ ⟨[], ["/ws"]⟩ "a.txt" "hi").2
        "a.txt").1.success = true ∧
      (read_file ⟨"/ws", true, "/b", "t0"⟩
        (create_file ⟨"/ws", true, "/b", "t0"⟩ ⟨[], ["/ws"]⟩ "a.txt" "hi").2
        "a.txt").1.content = some "hi") ∧
     (FS.mk [("/ws/p.txt", "old")] ["/ws"]).getFile
        (get_full_path "/ws" "p.txt") = some "old") ∧
    ((read_file ⟨"/ws", true, "/b", "t0"⟩
        (write_file ⟨"/ws", true, "/b", "t0"⟩ ⟨[("/ws/p.txt", "old")], ["/ws"]⟩
          "p.txt" "new" true).2 "p.txt").1.content = some ("old" ++ "new") ∧
     ("old" : String).data.isPrefixOf (("old" : String) ++ "new").data = true) :=
  ⟨⟨(c9_create_read_roundtrip_append ⟨"/ws", true, "/b", "t0"⟩ ⟨[], ["/ws"]⟩
      "a.txt" "hi" "" "").1, by decide⟩,
   (c9_create_read_roundtrip_append ⟨"/ws", true, "/b", "t0"⟩
      ⟨[("/ws/p.txt", "old")], ["/ws"]⟩ "p.txt" "hi" "new" "old").2 (by decide)⟩

/-- Claim C10: an absolute path argument bypasses the workspace in every
primitive: resolution returns it unchanged, each primitive behaves
identically under two different workspaces, mutation and reads act on
the absolute path itself, and the directory-existence check of the
listing primitive consults the absolute path. -/
theorem c10_absolute_paths_bypass_workspace (ws ws2 : String) (be : Bool)
    (bd ts : String) (fs : FS) (p q c pat : String) (ap rec : Bool)
    (hp : is_absolute_path p = true) (hq : is_absolute_path q = true) :
    get_full_path ws p = p ∧
    create_file ⟨ws, be, bd, ts⟩ fs p c = create_file ⟨ws2, be, bd, ts⟩ fs p c ∧
    (create_file ⟨ws, be, bd, ts⟩ fs p c).2.getFile p = some c ∧
    read_file ⟨ws, be, bd, ts⟩ fs p = read_file ⟨ws2, be, bd, ts⟩ fs p ∧
    write_file ⟨ws, be, bd, ts⟩ fs p c ap = write_file ⟨ws2, be, bd, ts⟩ fs p c ap ∧
    delete_file ⟨ws, be, bd, ts⟩ fs p = delete_file ⟨ws2, be, bd, ts⟩ fs p ∧
    move_file ⟨ws, be, bd, ts⟩ fs p q = move_file ⟨ws2, be, bd, ts⟩ fs p q ∧
    copy_file ⟨ws, be, bd, ts⟩ fs p q = copy_file ⟨ws2, be, bd, ts⟩ fs p q ∧
    create_directory ⟨ws, be, bd, ts⟩ fs p =
      create_directory ⟨ws2, be, bd, ts⟩ fs p ∧
    ((create_directory ⟨ws, be, bd, ts⟩ fs p).2.dirs.contains p = true) ∧
    (fs.dirs.contains p = false → (fs.getFile p).isSome = false →
      (list_files ⟨ws, be, bd, ts⟩ fs p pat rec).1.success = false ∧
      (list_files ⟨ws, be, bd, ts⟩ fs p pat rec).1.message =
        "Directory not found: " ++ p) := by
  have hw : ∀ w : String, get_full_path w p = p := by
    intro w; simp [get_full_path, hp]
  have hwq : ∀ w : String, get_full_path w q = q := by
    intro w; simp [get_full_path, hq]
  have hcb : ∀ fp : String, create_backup ⟨ws, be, bd, ts⟩ fs fp =
      create_backup ⟨ws2, be, bd, ts⟩ fs fp := by
    intro fp; rfl
  refine ⟨hw ws, ?_, ?_, ?_, ?_, ?_, ?_, ?_, ?_, ?_, ?_⟩
  · simp only [create_file]
    rw [hw ws, hw ws2, hcb p]
  · simp [create_file, hw, FS.getFile_setFile_self]
  · simp only [read_file]
    rw [hw ws, hw ws2]
  · simp only [write_file]
    rw [hw ws, hw ws2, hcb p]
  · simp only [delete_file]
    rw [hw ws, hw ws2, hcb p]
  · simp only [move_file]
    rw [hw ws, hw ws2, hwq ws, hwq ws2, hcb q]
  · simp only [copy_file]
    rw [hw ws, hw ws2, hwq ws, hwq ws2, hcb q]
  · simp only [create_directory]
    rw [hw ws, hw ws2]
  · simp [create_directory, hw]
    split
    · next hmem => simpa using hmem
    · simp
  · intro h1 h2
    simp only [list_files]
    rw [hw ws, h1, h2]
    simp

/-- Witness for C10 at two concrete workspaces and absolute paths. -/
theorem c10_witness :
    is_absolute_path "/tmp/a.txt" = true ∧
    is_absolute_path "/tmp/b.txt" = true ∧
    (get_full_path "/w1" "/tmp/a.txt" = "/tmp/a.txt" ∧
     create_file ⟨"/w1", true, "/b", "t0"⟩ ⟨[], []⟩ "/tmp/a.txt" "x" =
       create_file ⟨"/w2", true, "/b", "t0"⟩ ⟨[], []⟩ "/tmp/a.txt" "x" ∧
     (create_file ⟨"/w1", true, "/b", "t0"⟩ ⟨[], []⟩ "/tmp/a.txt" "x").2.getFile
       "/tmp/a.txt" = some "x" ∧
     read_file ⟨"/w1", true, "/b", "t0"⟩ ⟨[], []⟩ "/tmp/a.txt" =
       read_file ⟨"/w2", true, "/b", "t0"⟩ ⟨[], []⟩ "/tmp/a.txt" ∧
     write_file ⟨"/w1", true, "/b", "t0"⟩ ⟨[], []⟩ "/tmp/a.txt" "x" false =
       write_file ⟨"/w2", true, "/b", "t0"⟩ ⟨[], []⟩ "/tmp/a.txt" "x" false ∧
     delete_file ⟨"/w1", true, "/b", "t0"⟩ ⟨[], []⟩ "/tmp/a.txt" =
       delete_file ⟨"/w2", true, "/b", "t0"⟩ ⟨[], []⟩ "/tmp/a.txt" ∧
     move_file ⟨"/w1", true, "/b", "t0"⟩ ⟨[], []⟩ "/tmp/a.txt" "/tmp/b.txt" =
       move_file ⟨"/w2", true, "/b", "t0"⟩ ⟨[], []⟩ "/tmp/a.txt" "/tmp/b.txt" ∧
     copy_file ⟨"/w1", true, "/b", "t0"⟩ ⟨[], []⟩ "/tmp/a.txt" "/tmp/b.txt" =
       copy_file ⟨"/w2", true, "/b", "t0"⟩ ⟨[], []⟩ "/tmp/a.txt" "/tmp/b.txt" ∧
     create_directory ⟨"/w1", true, "/b", "t0"⟩ ⟨[], []⟩ "/tmp/a.txt" =
       create_directory ⟨"/w2", true, "/b", "t0"⟩ ⟨[], []⟩ "/tmp/a.txt" ∧
     ((create_directory ⟨"/w1", true, "/b", "t0"⟩ ⟨[], []⟩
        "/tmp/a.txt").2.dirs.contains "/tmp/a.txt" = true) ∧
     ((⟨[], []⟩ : FS).dirs.contains "/tmp/a.txt" = false →
       ((⟨[], []⟩ : FS).getFile "/tmp/a.txt").isSome = false →
       (list_files ⟨"/w1", true, "/b", "t0"⟩ ⟨[], []⟩ "/tmp/a.txt" "*"
          false).1.success = false ∧
       (list_files ⟨"/w1", true, "/b", "t0"⟩ ⟨[], []⟩ "/tmp/a.txt" "*"
          false).1.message = "Directory not found: " ++ "/tmp/a.txt")) :=
  ⟨by decide, by decide,
   c10_absolute_paths_bypass_workspace "/w1" "/w2" true "/b" "t0" ⟨[], []⟩
     "/tmp/a.txt" "/tmp/b.txt" "x" "*" false false (by decide) (by decide)⟩

/-- Claim C1 evaluated at a failing input (the code is the slip): the AI
response carries one registered create_file directive; the claim and
the comment above agent.py line 356 call for the whole directive line to
be removed from the displayed message, but the substitution removes only
the literal marker, so the directive body stays in the final message,
followed by the outcome block. -/
theorem c1_directive_text_left_in_message :
    (ai_process_execute ⟨"/ws", true, "/backups", "t0"⟩ true
      { success := true, response := "好的。\nEXECUTE: create_file(\"a.txt\", \"hi\")" }
      ⟨[], ["/ws"]⟩ "p").1.message =
      "好的。\n create_file(\"a.txt\", \"hi\")\n\n执行的操作：\n✓ create_file: File created successfully: a.txt" ∧
    strContains (ai_process_execute ⟨"/ws", true, "/backups", "t0"⟩ true
      { success := true, response := "好的。\nEXECUTE: create_file(\"a.txt\", \"hi\")" }
      ⟨[], ["/ws"]⟩ "p").1.message "create_file(\"a.txt\", \"hi\")" = true ∧
    (ai_process_execute ⟨"/ws", true, "/backups", "t0"⟩ true
      { success := true, response := "好的。\nEXECUTE: create_file(\"a.txt\", \"hi\")" }
      ⟨[], ["/ws"]⟩ "p").1.executed_operations =
      some ["✓ create_file: File created successfully: a.txt"] := by
  refine ⟨rfl, ?_, rfl⟩
  decide

end Agent
